import Mathlib

/-!
Verification of the ECF-TST forest-cover-loss pipeline
(`src/Code/ECF_TST_Annual_FCL_Mapping.js` and the training/optimization
script `src/unnamed/part_001`) against its natural-language specification.

The Google Earth Engine (GEE) code is shallowly embedded over exact
rationals: a per-pixel band value is a `ℚ`, a raster is a function
`ℤ → ℤ → ℚ` (or `ℤ → ℤ → ℕ` for categorical rasters), sample points are
records with an integer label, and GEE collections become Lean lists.
GEE's documented semantics are modelled explicitly: `divide` returns 0
on a zero denominator; `normalizedDifference` forces negative inputs to 0
and masks (returns `none`) when the resulting denominator is zero;
`ee.Algorithms.If` evaluates its condition once as a client-side truthy
check, not per pixel; and an evaluation that throws (a JavaScript
reference to an undefined identifier) is modelled as `none`.
-/

namespace ECFTST

/-- GEE `divide` semantics: division returns 0 when the denominator is 0
(this is the documented behaviour of `ee.Image.divide` / array divide). -/
def geeDivide (a b : ℚ) : ℚ := if b = 0 then 0 else a / b

/-! ### Index Calculator (`addIndices`, lines 321-352 of the mapping script) -/

/-- GEE `normalizedDifference(["A","B"])` computes `(a - b) / (a + b)`
with negative input values forced to 0 so that the result stays within
(-1, 1); the pixel is masked (here `none`) when the resulting denominator
is zero. -/
def normalizedDifference (a b : ℚ) : Option ℚ :=
  if max a 0 + max b 0 = 0 then none
  else some ((max a 0 - max b 0) / (max a 0 + max b 0))

/-- NDVI band of `addIndices`: `img.normalizedDifference(["B4","B3"]).multiply(1000)`,
with B4 the near-infrared and B3 the red reflectance band. -/
def NDVI (nir red : ℚ) : Option ℚ :=
  (normalizedDifference nir red).map (fun v => v * 1000)

/-! ### Temporal Trajectory Aggregator (`calculateAnnualFeatures`, lines 486-580) -/

/-- The literal `1e-5` used in `chg_ra_target`. -/
def eps : ℚ := 1 / 100000

/-- Truth value of the condition `denom.eq(0)` as `ee.Algorithms.If` sees
it: `If` does not branch per pixel — it evaluates its condition argument
once, and the condition here is a computed `ee.Image` object, which is
truthy. -/
def safeDivideCondTruthy : Bool := true

/-- The `safeDivide` helper (lines 514-520):
`ee.Algorithms.If(denom.eq(0), ee.Image(0), num.divide(denom))`.  Because
the condition is an `ee.Image` object and therefore truthy, `If` returns
its true case — the constant image 0 — wholesale, for every pixel and
regardless of the argument values; the false branch would carry GEE
divide semantics but is never taken. -/
def safeDivide (num denom : ℚ) : ℚ :=
  if safeDivideCondTruthy then 0 else geeDivide num denom

/-- The `chg_ra_target` computation (lines 523-526), per pixel and per index
band: `imgTarget.subtract(imgPrev1).divide(safeDivide(imgPrev1.abs(), imgPrev1.abs().add(1e-5)))`.
`iT` is the target-year index value `I_T`, `iP` the prior-year value `I_{T-1}`.
Since `safeDivide` returns the constant image 0, the outer `divide` is a
division by zero at every pixel and follows the GEE zero-denominator
policy. -/
def chg_ra (iT iP : ℚ) : ℚ :=
  geeDivide (iT - iP) (safeDivide |iP| (|iP| + eps))

/-- The specification's formula for `*_chg_ra` (spec §4.5), stated for
comparison with the code's `chg_ra`: `(I_T − I_{T-1}) / max(|I_{T-1}|, ε)`
with `ε = 1e-5`; the denominator is then never zero. -/
def specChgRa (iT iP : ℚ) : ℚ :=
  (iT - iP) / max |iP| eps

/-- Sum of squares of the explanatory variable over a regression window;
`pts` is the list of (year, index value) points with data in the window. -/
def sumXX (pts : List (ℚ × ℚ)) : ℚ :=
  (pts.map (fun p => p.1 * p.1)).sum

/-- Sum of products year·value over a regression window. -/
def sumXY (pts : List (ℚ × ℚ)) : ℚ :=
  (pts.map (fun p => p.1 * p.2)).sum

/-- The `calculateTrend` helper (lines 567-579): it reduces the window with
`ee.Reducer.linearRegression({numX: 1, numY: 8})` where the single
explanatory band is the raw `year` band added by `addYearBand` — no constant
band is supplied, so the least-squares system is `value = b · year`
(a regression through the origin) and the returned coefficient is
`Σ(year·value) / Σ(year²)`.  The reducer yields a masked output (`none`)
when the normal matrix `Σ(year²)` is singular. -/
def calculateTrend (pts : List (ℚ × ℚ)) : Option ℚ :=
  if sumXX pts = 0 then none else some (sumXY pts / sumXX pts)

/-- The specification's description of `*_trend` (spec §4.5), stated for
comparison with the code's `calculateTrend`: the slope coefficient of an
ordinary-least-squares linear regression (with intercept) of the index
value against year, undefined with fewer than 2 distinct years. -/
def specOlsSlope (pts : List (ℚ × ℚ)) : Option ℚ :=
  let n : ℚ := pts.length
  let sx := (pts.map Prod.fst).sum
  let sy := (pts.map Prod.snd).sum
  let d := n * sumXX pts - sx * sx
  if d = 0 then none else some ((n * sumXY pts - sx * sy) / d)

/-! ### Texture Extractor (`addFirstOrderTexture`, lines 359-384) -/

/-- Pixel offsets `-r .. r` of a square kernel of the given radius. -/
def offsets (r : ℕ) : List ℤ :=
  (List.range (2 * r + 1)).map (fun i => (i : ℤ) - (r : ℤ))

/-- Values of a raster over the square neighborhood of the given radius
centered on pixel `(x, y)`. -/
def neighborhoodVals (r : ℕ) (img : ℤ → ℤ → ℚ) (x y : ℤ) : List ℚ :=
  (offsets r).flatMap (fun dx => (offsets r).map (fun dy => img (x + dx) (y + dy)))

/-- Model of `reduceNeighborhood(ee.Reducer.mean(), kernel)` over a square kernel of
radius `r`: the mean of the `(2r+1)²` neighborhood values. -/
def reduceNeighborhoodMean (r : ℕ) (img : ℤ → ℤ → ℚ) (x y : ℤ) : ℚ :=
  (neighborhoodVals r img x y).sum / ((neighborhoodVals r img x y).length : ℚ)

/-- The kernel radius used by `addFirstOrderTexture`:
`ee.Kernel.square(3, "pixels")` builds a square kernel of RADIUS 3 pixels,
i.e. a 7×7 window. -/
def firstOrderKernelRadius : ℕ := 3

/-- The `<band>_mean` texture band of `addFirstOrderTexture` for one input
band (`image.select(b).reduceNeighborhood(ee.Reducer.mean(), kernel)`). -/
def firstOrderMean (img : ℤ → ℤ → ℚ) (x y : ℤ) : ℚ :=
  reduceNeighborhoodMean firstOrderKernelRadius img x y

/-- The six reflectance bands given first-order texture, and the 12 output
band names (`<band>_mean`, `<band>_stdDev`), in the order the code adds them. -/
def firstOrderTextureBandNames : List String :=
  (["B1", "B2", "B3", "B4", "B5", "B7"]).flatMap
    (fun b => [b ++ "_mean", b ++ "_stdDev"])

/-- The specification's window for first-order texture (spec §4.2), stated
for comparison with the code: a 3×3 (radius-1) square neighborhood mean. -/
def specFirstOrderMean (img : ℤ → ℤ → ℚ) (x y : ℤ) : ℚ :=
  reduceNeighborhoodMean 1 img x y

/-! ### Predictor & Post-Processor (`smoothed`, lines 658-661) -/

/-- Most frequent value of a list (the mode), as used by `focal_mode`:
a left fold keeping the value with the strictly larger count. Ties keep the
earlier value; on a uniform neighborhood every choice coincides. -/
def modeOf (l : List ℕ) : ℕ :=
  l.foldl (fun best v => if l.count best < l.count v then v else best) (l.headD 0)

/-- Class labels in the 3×3 (radius-1 square) neighborhood of `(x, y)` of a
categorical raster. -/
def labelNeighborhood (img : ℤ → ℤ → ℕ) (x y : ℤ) : List ℕ :=
  (offsets 1).flatMap (fun dx => (offsets 1).map (fun dy => img (x + dx) (y + dy)))

/-- One application of the 3×3 majority filter:
`classified.focal_mode({radius: 1, kernelType: "square", iterations: 1})`. -/
def focalMode (img : ℤ → ℤ → ℕ) : ℤ → ℤ → ℕ :=
  fun x y => modeOf (labelNeighborhood img x y)

/-- The post-processing smoothing step with its configured single iteration. -/
def smoothed (img : ℤ → ℤ → ℕ) : ℤ → ℤ → ℕ :=
  focalMode img

/-! ### Classifier Trainer & Grid-Search Optimizer (`src/unnamed/part_001`) -/

/-- A sample point of the training pool: a geolocated record carrying a
discrete class label (0 stable, 1..3 disturbance). The `id` distinguishes
distinct records with equal labels. Feature values play no role in the
balancing arithmetic and are omitted. -/
structure Sample where
  id : ℕ
  label : ℤ
deriving DecidableEq, Repr

/-- Model of `features.filter(ee.Filter.eq("label", targetClass))`: the samples of one
class. -/
def classSamples (features : List Sample) (c : ℤ) : List Sample :=
  features.filter (fun s => decide (s.label = c))

/-- Number of samples of class `c` in a collection; this is both
`classSamples.size()` in `oversampleClass` and the entry of the
`frequencyHistogram` of the `label` column in `evaluateParams`. -/
def classCount (features : List Sample) (c : ℤ) : ℕ :=
  (classSamples features c).length

/-- Model of `oversampleClass` (part_001 lines 221-233).  `randomOrder` models
`classSamples.randomColumn("oversample")` sorted ascending by the random
column: an arbitrary permutation of the class samples.
`limit(overSize, "oversample", true)` is the `take` of that order, so it
returns at most `classSamples.size()` elements, each original sample at
most once. -/
def oversampleClass (features : List Sample) (targetClass : ℤ) (multiplier : ℚ)
    (randomOrder : List Sample) : List Sample :=
  let cs := classSamples features targetClass
  let size : ℕ := cs.length
  let targetSize : ℤ := round (max (multiplier * (size : ℚ)) 0)
  let overSize : ℤ := targetSize - (size : ℤ)
  let overSampled : List Sample :=
    if 0 < overSize then randomOrder.take overSize.toNat else []
  cs ++ overSampled

/-- Function identifiers that part_001 defines and the balancing step can
resolve: only `oversampleClass` (line 221) exists; the misspelled
`oversampledClass` of line 278 is defined nowhere. -/
def definedHelpers : List String := ["oversampleClass"]

/-- A call to an oversampling helper by identifier, as JavaScript resolves
it: a reference to an identifier that is not defined throws a
ReferenceError, modelled as `none`; the one defined helper dispatches to
`oversampleClass`. -/
def callHelper (name : String) (features : List Sample) (targetClass : ℤ)
    (multiplier : ℚ) (randomOrder : List Sample) : Option (List Sample) :=
  if name ∈ definedHelpers then
    some (oversampleClass features targetClass multiplier randomOrder)
  else none

/-- The class-balancing step of `evaluateParams` (part_001 lines 262-284):
multipliers are `target / observed` per disturbance class; lines 276-277
call `oversampleClass` for classes 1 and 2, but line 278 spells the
identifier `oversampledClass` (an extra d), which is undefined, so the
step throws before the stable-class merge of line 280 and never yields a
balanced training set. `ord1 ord2 ord3` are the random orders drawn
inside `oversampleClass` for classes 1, 2, 3. -/
def balancedTrainingSet (pool : List Sample) (t1 t2 t3 : ℚ)
    (ord1 ord2 ord3 : List Sample) : Option (List Sample) := do
  let o1 ← callHelper "oversampleClass" pool 1
    (t1 / (classCount pool 1 : ℚ)) ord1
  let o2 ← callHelper "oversampleClass" pool 2
    (t2 / (classCount pool 2 : ℚ)) ord2
  let o3 ← callHelper "oversampledClass" pool 3
    (t3 / (classCount pool 3 : ℚ)) ord3
  return classSamples pool 0 ++ o1 ++ o2 ++ o3

/-! ### Hyperparameter grid (part_001 lines 144-179, 336-343) -/

/-- One ensemble configuration of `rfParamsGrid`. -/
structure RFParams where
  trees : ℕ
  leafPop : ℕ
  bagFrac : ℚ
  splitVar : ℚ
deriving DecidableEq, Repr

/-- Model of `targetSizesGrid` (part_001 lines 144-154): the 9 target-size triples. -/
def targetSizesGrid : List (List ℕ) :=
  [[400, 400, 600],
   [400, 400, 800],
   [400, 500, 700],
   [500, 400, 700],
   [500, 500, 600],
   [500, 500, 700],
   [500, 500, 800],
   [600, 400, 700],
   [600, 500, 800]]

/-- Model of `rfParamsGrid` (part_001 lines 157-167): the 9 ensemble configurations. -/
def rfParamsGrid : List RFParams :=
  [⟨50, 1, 0.5, 0.5⟩,
   ⟨50, 1, 0.7, 0.7⟩,
   ⟨50, 2, 0.6, 0.6⟩,
   ⟨100, 1, 0.5, 0.7⟩,
   ⟨100, 2, 0.6, 0.6⟩,
   ⟨100, 5, 0.7, 0.5⟩,
   ⟨150, 2, 0.7, 0.5⟩,
   ⟨150, 5, 0.5, 0.7⟩,
   ⟨200, 5, 0.6, 0.6⟩]

/-- Model of `allCombinations` (part_001 lines 170-177): for each target-size triple,
pair it with every ensemble configuration, then flatten. -/
def allCombinations : List (List ℕ × RFParams) :=
  (targetSizesGrid.map (fun ts => rfParamsGrid.map (fun rf => (ts, rf)))).flatten

/-- The parameter part of the Evaluation Record emitted by `evaluateParams`
(part_001 lines 310-328): the iteration index and the combination's
parameters. The accuracy/kappa/recall statistics depend on the sample
library and the trained classifier and are outside the enumeration claim. -/
structure EvalRecord where
  iteration : ℕ
  targets : List ℕ
  params : RFParams
deriving DecidableEq, Repr

/-- Model of `evaluateParams` (part_001 lines 245-329) at the granularity
of Evaluation Record production: the record of lines 310-328 exists only
if the class balancing of lines 262-284 completes; the record carries the
iteration index and the combination's parameters (the accuracy, kappa and
recall statistics depend on the externally trained classifier). -/
def evaluateParams (pool : List Sample) (iteration : ℕ)
    (comb : List ℕ × RFParams) (ord1 ord2 ord3 : List Sample) :
    Option EvalRecord :=
  (balancedTrainingSet pool ((comb.1.getD 0 0 : ℕ) : ℚ)
      ((comb.1.getD 1 0 : ℕ) : ℚ) ((comb.1.getD 2 0 : ℕ) : ℚ)
      ord1 ord2 ord3).map
    (fun _ => { iteration := iteration, targets := comb.1, params := comb.2 })

/-- The grid-search driver (part_001 lines 336-343): iterations
`0 .. size-1` mapped to `evaluateParams(allCombinations.get(i), i)`.  The
ReferenceError aborts the run at the first evaluation; each per-iteration
outcome is recorded here as the errored `none`. -/
def gridSearchRecords (pool : List Sample) (ord1 ord2 ord3 : List Sample) :
    List (Option EvalRecord) :=
  (List.range allCombinations.length).map
    (fun i => evaluateParams pool i (allCombinations.getD i ([], ⟨0, 0, 0, 0⟩))
      ord1 ord2 ord3)

/-! ### Confusion matrix metrics (part_001 lines 304-328) -/

/-- Order of the error matrix built by
`testClassification.errorMatrix("label", "classification")`: with no
explicit order argument the matrix spans `0 .. max(all observed values)`.
`pairs` is the held-out test set as (actual label, predicted label). -/
def matrixOrder (pairs : List (ℕ × ℕ)) : ℕ :=
  pairs.foldr (fun p m => max (max p.1 p.2 + 1) m) 0

/-- Entry `(i, j)` of the error matrix: how many test samples of actual
class `i` were predicted as class `j`. -/
def cmEntry (pairs : List (ℕ × ℕ)) (i j : ℕ) : ℕ :=
  pairs.count (i, j)

/-- Row sum `i` of the error matrix: number of test samples whose actual
class is `i` (restricted to classes the matrix spans). -/
def cmRowSum (pairs : List (ℕ × ℕ)) (i : ℕ) : ℕ :=
  ((List.range (matrixOrder pairs)).map (fun j => cmEntry pairs i j)).sum

/-- Model of `confusionMatrix.producersAccuracy()` flattened to a list: per class
(row), the diagonal entry over the row sum, with the GEE zero-denominator
divide policy (an absent class yields `0/0 = 0`). -/
def producersAccuracyList (pairs : List (ℕ × ℕ)) : List ℚ :=
  (List.range (matrixOrder pairs)).map
    (fun i => geeDivide (cmEntry pairs i i : ℚ) (cmRowSum pairs i : ℚ))

/-- Model of `ee.Number(confusionMatrix.producersAccuracy().toList().get(k))`: the
recall reported for class `k` in the Evaluation Record. `ee.List.get` with
an out-of-range index is an error, modelled as `none`. -/
def reportedRecall (pairs : List (ℕ × ℕ)) (k : ℕ) : Option ℚ :=
  (producersAccuracyList pairs)[k]?

/-- Model of `confusionMatrix.accuracy()`: correctly classified fraction of the test
set, with the GEE zero-denominator policy. -/
def overallAccuracy (pairs : List (ℕ × ℕ)) : ℚ :=
  geeDivide ((pairs.filter (fun p => decide (p.1 = p.2))).length : ℚ)
    (pairs.length : ℚ)

/-! ### Concrete probe inputs used by counterexamples and witnesses -/

/-- A probe raster: zero everywhere except value 49 at pixel `(3, 0)`.
The pixel `(3, 0)` lies outside the 3×3 window of the origin but inside
the 7×7 window the code actually uses. -/
def texProbe : ℤ → ℤ → ℚ :=
  fun x y => if x = 3 ∧ y = 0 then 49 else 0

/-- A held-out test split as (actual, predicted) pairs in which label
class 2 never occurs as an actual label, while the matrix still spans
classes 0..3. -/
def absentClassTest : List (ℕ × ℕ) := [(0, 0), (1, 1), (3, 3)]

/-- A training pool with one stable sample, one class-1 sample, two class-2
samples and two class-3 samples. -/
def pool2 : List Sample :=
  [⟨0, 0⟩, ⟨1, 1⟩, ⟨2, 2⟩, ⟨3, 2⟩, ⟨4, 3⟩, ⟨5, 3⟩]

/-! ### Theorems -/

/-- Claim C1 (code bug, evaluated): the code's `*_chg_ra` output is
identically 0, not `(I_T − I_{T-1}) / max(|I_{T-1}|, 1e-5)`.  The
condition `denom.eq(0)` handed to `ee.Algorithms.If` inside `safeDivide`
is an `ee.Image` object, truthy when `If` evaluates it once, so
`safeDivide` returns the constant image 0 and the outer division of
`chg_ra_target` is a division by zero at every pixel, which GEE evaluates
to 0.  The claim's formula instead gives 1 at `I_{T-1} = 2`, `I_T = 4`,
and its safe-divide-denominator-zero clause is unreachable per pixel. -/
theorem claim_C1_chg_ra_code_eval :
    (∀ iT iP : ℚ, chg_ra iT iP = 0) ∧
    specChgRa 4 2 = 1 ∧
    chg_ra 4 2 ≠ specChgRa 4 2 := by
  have hz : ∀ iT iP : ℚ, chg_ra iT iP = 0 := by
    intro iT iP
    rw [chg_ra, safeDivide]
    simp [safeDivideCondTruthy, geeDivide]
  have h2 : specChgRa 4 2 = 1 := by
    have habs2 : |(2 : ℚ)| = 2 := abs_of_pos (by norm_num)
    rw [specChgRa, eps, habs2, max_eq_left (by norm_num)]
    norm_num
  exact ⟨hz, h2, by rw [hz 4 2, h2]; norm_num⟩

/-- Claim C3 (code bug, evaluated at the failing input): `calculateTrend`
passes only the raw `year` band as explanatory variable to
`linearRegression({numX: 1})` with no constant band, so it fits a
regression through the origin.  For the synthetic series with years 1, 2
and values 2, 3 (increasing by exactly Δ = 1 per year) the code returns
`Σ(t·y)/Σ(t²) = 8/5`, not the OLS slope 1 the spec demands; and on a
single point the code returns a defined coefficient where the spec demands
a missing slope. -/
theorem claim_C3_trend_code_eval :
    calculateTrend [(1, 2), (2, 3)] = some (8 / 5) ∧
    specOlsSlope [(1, 2), (2, 3)] = some 1 ∧
    calculateTrend [(1, 2), (2, 3)] ≠ specOlsSlope [(1, 2), (2, 3)] ∧
    calculateTrend [(2, 5)] = some (5 / 2) ∧
    specOlsSlope [(2, 5)] = none := by
  have hxx : sumXX [((1 : ℚ), (2 : ℚ)), (2, 3)] = 5 := by
    simp [sumXX]; norm_num
  have hxy : sumXY [((1 : ℚ), (2 : ℚ)), (2, 3)] = 8 := by
    simp [sumXY]; norm_num
  have h1 : calculateTrend [(1, 2), (2, 3)] = some (8 / 5) := by
    rw [calculateTrend, hxy, hxx]
    norm_num
  have h2 : specOlsSlope [(1, 2), (2, 3)] = some 1 := by
    rw [specOlsSlope]
    rw [hxy, hxx]
    norm_num
  have h4 : calculateTrend [(2, 5)] = some (5 / 2) := by
    have ha : sumXX [((2 : ℚ), (5 : ℚ))] = 4 := by simp [sumXX]; norm_num
    have hb : sumXY [((2 : ℚ), (5 : ℚ))] = 10 := by simp [sumXY]; norm_num
    rw [calculateTrend, ha, hb]
    norm_num
  have h5 : specOlsSlope [(2, 5)] = none := by
    have ha : sumXX [((2 : ℚ), (5 : ℚ))] = 4 := by simp [sumXX]; norm_num
    rw [specOlsSlope, ha]
    norm_num
  refine ⟨h1, h2, ?_, h4, h5⟩
  rw [h1, h2]
  intro hcontra
  have : (8 / 5 : ℚ) = 1 := Option.some.inj hcontra
  norm_num at this

/-- Claim C4 (code bug, evaluated at the failing input): the first-order
texture bands are indeed 12 (`<band>_mean`, `<band>_stdDev` for 6 bands),
but the neighborhood window is NOT 3×3: `ee.Kernel.square(3, "pixels")`
has radius 3, i.e. a 7×7 window.  On the probe raster that is zero except
at pixel `(3, 0)`, the code's neighborhood mean at the origin is 1/49·49 = 1,
while the 3×3 (radius-1) mean demanded by the claim is 0. -/
theorem claim_C4_texture_code_eval :
    firstOrderTextureBandNames.length = 12 ∧
    firstOrderKernelRadius = 3 ∧
    firstOrderMean texProbe 0 0 = 1 ∧
    specFirstOrderMean texProbe 0 0 = 0 := by
  have hoff3 : offsets 3 = [-3, -2, -1, 0, 1, 2, 3] := by decide
  have hoff1 : offsets 1 = [-1, 0, 1] := by decide
  refine ⟨by simp [firstOrderTextureBandNames], rfl, ?_, ?_⟩
  · rw [firstOrderMean, reduceNeighborhoodMean, firstOrderKernelRadius,
      neighborhoodVals, hoff3]
    simp only [texProbe, List.flatMap, List.map_cons, List.map_nil,
      List.flatten, List.append_nil, List.sum_cons, List.sum_nil,
      List.length_cons, List.length_nil, List.length_append]
    norm_num
  · rw [specFirstOrderMean, reduceNeighborhoodMean, neighborhoodVals, hoff1]
    simp only [texProbe, List.flatMap, List.map_cons, List.map_nil,
      List.flatten, List.append_nil, List.sum_cons, List.sum_nil,
      List.length_cons, List.length_nil, List.length_append]
    norm_num

/-- Claim C8 (counterexample): at the equal NEGATIVE reflectances
NIR = RED = −1 — whose sum −2 is nonzero, so the claim as stated applies —
`normalizedDifference` forces both inputs to 0, the resulting denominator
collapses, and the pixel is masked: the NDVI output is missing, not 0. -/
theorem claim_C8_counterexample :
    NDVI (-1) (-1) = none ∧ ((-1 : ℚ) + (-1)) ≠ 0 := by
  constructor
  · have hm : max (-1 : ℚ) 0 = 0 := max_eq_right (by norm_num)
    rw [NDVI, normalizedDifference, hm]
    norm_num
  · norm_num

/-- Claim C8 (amended): for every reflectance pixel with NIR = RED and a
positive common value, the NDVI band `nd(NIR, RED)·1000` equals 0; equal
negative values are clamped to 0 by `normalizedDifference` and the pixel
is masked instead. -/
theorem claim_C8_ndvi_zero (nir red : ℚ) (heq : nir = red)
    (hpos : 0 < nir) : NDVI nir red = some 0 := by
  subst heq
  have hmax : max nir 0 = nir := max_eq_left hpos.le
  have hsum : nir + nir ≠ 0 := by
    have h2 : (0 : ℚ) < nir + nir := by linarith
    exact h2.ne'
  rw [NDVI, normalizedDifference, hmax]
  simp [hsum]

/-- Witness for the amended claim C8, at NIR = RED = 1. -/
theorem claim_C8_witness : NDVI 1 1 = some 0 :=
  claim_C8_ndvi_zero 1 1 rfl (by norm_num)

/-- A fold that keeps `c` stays at `c` over a constant list, provided the
step function fixes `c`. -/
theorem foldl_fix_of_replicate (f : ℕ → ℕ → ℕ) (c : ℕ) (hf : f c c = c) :
    ∀ m : ℕ, List.foldl f c (List.replicate m c) = c := by
  intro m
  induction m with
  | zero => simp
  | succ k ih => simpa [List.replicate_succ, hf] using ih

/-- Mode of a nonempty constant list is its constant value. -/
theorem modeOf_replicate (n : ℕ) (c : ℕ) (hn : n ≠ 0) :
    modeOf (List.replicate n c) = c := by
  obtain ⟨m, rfl⟩ : ∃ m, n = m + 1 := ⟨n - 1, by omega⟩
  unfold modeOf
  rw [List.replicate_succ]
  simp only [List.headD_cons, List.foldl_cons, lt_self_iff_false, if_false]
  exact foldl_fix_of_replicate _ c (by simp) m

/-- Claim C9 (confirmed): a spatially uniform classification raster is a
fixed point of the 3×3 majority (mode) filter with one iteration. -/
theorem claim_C9_uniform_fixed_point (c : ℕ) :
    smoothed (fun _ _ => c) = fun _ _ => c := by
  funext x y
  show modeOf (labelNeighborhood (fun _ _ => c) x y) = c
  have h9 : labelNeighborhood (fun _ _ => c) x y = List.replicate 9 c := rfl
  rw [h9]
  exact modeOf_replicate 9 c (by norm_num)

/-- Claim C5 (counterexample): on a held-out split whose actual labels are
0, 1, 3 — class 2 absent — the Evaluation Record reports the class-2
producer's accuracy as the VALUE 0 (GEE's zero-denominator division
yields 0), not as a missing metric. -/
theorem claim_C5_counterexample :
    (absentClassTest.all (fun p => decide (p.1 ≠ 2)) = true) ∧
    reportedRecall absentClassTest 2 = some 0 := by
  constructor
  · decide
  · have hrange : List.range (matrixOrder absentClassTest) = [0, 1, 2, 3] := by
      decide
    have hentry : cmEntry absentClassTest 2 2 = 0 := by decide
    rw [reportedRecall, producersAccuracyList, hrange]
    simp [hentry, geeDivide]

/-- Claim C5 (amended): for every test split and class `c` that is absent
from the actual labels but lies within the confusion-matrix order, the
reported recall is the value 0 — never a missing metric — and the
producer's-accuracy list still has one entry per spanned class. -/
theorem claim_C5_absent_recall_zero (pairs : List (ℕ × ℕ)) (c : ℕ)
    (hc : c < matrixOrder pairs) (habs : ∀ p ∈ pairs, p.1 ≠ c) :
    reportedRecall pairs c = some 0 ∧
    (producersAccuracyList pairs).length = matrixOrder pairs := by
  have hentry : cmEntry pairs c c = 0 := by
    rw [cmEntry, List.count_eq_zero]
    intro hmem
    exact habs _ hmem rfl
  constructor
  · rw [reportedRecall, producersAccuracyList, List.getElem?_map,
      List.getElem?_range hc]
    simp [hentry, geeDivide]
  · simp [producersAccuracyList]

/-- Witness for the amended claim C5, on the concrete split missing
class 2. -/
theorem claim_C5_witness :
    reportedRecall absentClassTest 2 = some 0 ∧
    (producersAccuracyList absentClassTest).length =
      matrixOrder absentClassTest :=
  claim_C5_absent_recall_zero absentClassTest 2 (by decide) (by decide)

/-- Nodup of the 9 target-size triples. -/
theorem targetSizesGrid_nodup : targetSizesGrid.Nodup := by decide

/-- Nodup of the 9 ensemble configurations. -/
theorem rfParamsGrid_nodup : rfParamsGrid.Nodup := by
  simp only [rfParamsGrid, List.nodup_cons, List.mem_cons, List.mem_singleton,
    List.not_mem_nil, or_false, RFParams.mk.injEq, not_or, List.nodup_nil,
    and_true]
  norm_num

/-- The class-balancing step always errors: whatever the pool, targets
and random orders, its class-3 call resolves the undefined identifier of
part_001 line 278. -/
theorem balancedTrainingSet_eq_none (pool : List Sample) (t1 t2 t3 : ℚ)
    (ord1 ord2 ord3 : List Sample) :
    balancedTrainingSet pool t1 t2 t3 ord1 ord2 ord3 = none := by
  simp [balancedTrainingSet, callHelper, definedHelpers]

/-- Claim C7 (code bug, evaluated): the grid is enumerated exactly — the
81-member Cartesian product of the two 9-member grids, with no duplicate
combination — but no Evaluation Record is ever emitted: `evaluateParams`
reaches the undefined identifier of line 278 on every iteration, so every
per-iteration outcome of the driver is the errored `none` instead of one
record per combination. -/
theorem claim_C7_grid_crash :
    allCombinations.length = 81 ∧
    allCombinations.Nodup ∧
    allCombinations = targetSizesGrid ×ˢ rfParamsGrid ∧
    (∀ (pool : List Sample) (i : ℕ) (comb : List ℕ × RFParams)
      (ord1 ord2 ord3 : List Sample),
      evaluateParams pool i comb ord1 ord2 ord3 = none) ∧
    (∀ (pool : List Sample) (ord1 ord2 ord3 : List Sample),
      gridSearchRecords pool ord1 ord2 ord3 = List.replicate 81 none) := by
  have hprod : allCombinations = targetSizesGrid ×ˢ rfParamsGrid := rfl
  have heval : ∀ (pool : List Sample) (i : ℕ) (comb : List ℕ × RFParams)
      (ord1 ord2 ord3 : List Sample),
      evaluateParams pool i comb ord1 ord2 ord3 = none := by
    intro pool i comb o1 o2 o3
    rw [evaluateParams, balancedTrainingSet_eq_none]
    rfl
  refine ⟨rfl, ?_, hprod, heval, ?_⟩
  · rw [hprod]
    exact List.Nodup.product targetSizesGrid_nodup rfParamsGrid_nodup
  · intro pool o1 o2 o3
    have hlen : allCombinations.length = 81 := rfl
    simp [gridSearchRecords, heval, List.map_const, hlen]

/-! ### Lemmas about the class-balancing step -/

/-- Membership in the filtered class samples. -/
theorem mem_classSamples {pool : List Sample} {c : ℤ} {x : Sample} :
    x ∈ classSamples pool c ↔ x ∈ pool ∧ x.label = c := by
  simp [classSamples]

/-- Class counts distribute over merged collections. -/
theorem classCount_append (a b : List Sample) (c : ℤ) :
    classCount (a ++ b) c = classCount a c + classCount b c := by
  simp [classCount, classSamples]

/-- When every sample of a collection carries label `c`, the class-`c`
count is the whole collection. -/
theorem classCount_of_all {l : List Sample} {c : ℤ}
    (h : ∀ x ∈ l, x.label = c) : classCount l c = l.length := by
  have h2 : ∀ x ∈ l, (fun s => decide (s.label = c)) x = true := by
    intro x hx
    simp [h x hx]
  rw [classCount, classSamples, List.filter_eq_self.mpr h2]

/-- Oversampling never shrinks a class below its observed size. -/
theorem le_classCount_oversampleClass {pool : List Sample} {c : ℤ} {m : ℚ}
    {ord : List Sample} :
    classCount pool c ≤ classCount (oversampleClass pool c m ord) c := by
  simp only [oversampleClass]
  rw [classCount_append]
  have hself : classCount (classSamples pool c) c = classCount pool c := by
    rw [classCount_of_all (fun x hx => (mem_classSamples.mp hx).2)]
    rfl
  rw [hself]
  exact Nat.le_add_right _ _

/-- Claim C2 (code evaluated at the failing input): on the concrete pool
with class sizes 1, 2, 2 and target triple (3, 2, 2), the class-3 call of
line 278 resolves the undefined identifier `oversampledClass` and throws,
so the balancing step yields no balanced training collection whose
class counts could be compared with the targets. -/
theorem claim_C2_balancing_throws :
    callHelper "oversampledClass" pool2 3 ((2 : ℚ) / (classCount pool2 3 : ℚ))
      (classSamples pool2 3) = none ∧
    balancedTrainingSet pool2 3 2 2 (classSamples pool2 1)
      (classSamples pool2 2) (classSamples pool2 3) = none := by
  constructor
  · simp [callHelper, definedHelpers]
  · exact balancedTrainingSet_eq_none pool2 3 2 2 (classSamples pool2 1)
      (classSamples pool2 2) (classSamples pool2 3)

/-- Claim C6 (code evaluated): for every training pool, target triple and
random orders, the balancing step throws before the stable-class merge of
line 280, so no balanced training set exists whose label-0 count could be
compared with the pool's. -/
theorem claim_C6_no_balanced_set (pool : List Sample) (t1 t2 t3 : ℚ)
    (ord1 ord2 ord3 : List Sample) :
    balancedTrainingSet pool t1 t2 t3 ord1 ord2 ord3 = none :=
  balancedTrainingSet_eq_none pool t1 t2 t3 ord1 ord2 ord3

/-- Claim C10 (code evaluated): the defined helper `oversampleClass` by
itself never shrinks a class below its observed size — it merges the
duplicates onto the original class samples — but the balancing step that
would use its output throws at line 278, so no balanced training set ever
exists for the pool samples to appear in. -/
theorem claim_C10_step_throws :
    (∀ (pool : List Sample) (c : ℤ) (m : ℚ) (ord : List Sample),
      classCount pool c ≤ classCount (oversampleClass pool c m ord) c) ∧
    (∀ (pool : List Sample) (t1 t2 t3 : ℚ) (ord1 ord2 ord3 : List Sample),
      balancedTrainingSet pool t1 t2 t3 ord1 ord2 ord3 = none) :=
  ⟨fun _ _ _ _ => le_classCount_oversampleClass,
   fun pool t1 t2 t3 ord1 ord2 ord3 =>
     balancedTrainingSet_eq_none pool t1 t2 t3 ord1 ord2 ord3⟩

end ECFTST
